import Mathlib

/-!
Shallow embedding of the Account Aggregator data-collection layer of the
creditclear repository (`src/data_processing/collectors.py` and
`src/api/routes/data_collection.py`), together with theorems settling the
frozen claims about consent lifecycle, status reconciliation and FI-data
normalization.

Modelling conventions:
* Python `datetime` values are integer timestamps (seconds); `timedelta(days=d)`
  is `d * 86400`.
* The collector's `self.active_consents` dict is an association list keyed by
  consent handle; assignment prepends (lookup returns the first match, which
  models dict overwrite).
* A network interaction is an explicit `NetResult` argument: either an HTTP
  response (status code plus already-parsed body) or a raised transport
  exception.  Functions that may call the network also report whether the call
  was attempted.
* Python `float(x)` on a JSON value is `pyFloat`; for strings it parses signed
  decimal literals (exponent forms, `inf`/`nan` and underscores of Python's
  parser are outside the inputs the claims use and are not modelled).
* `_generate_sample_financial_data` draws from a numpy RNG seeded with the hash
  of the user id; its output is represented abstractly by the
  `ProcessResult.sampleFallback` constructor carrying the user id it was called
  with, so that the fallback is observable without modelling the RNG.
-/

namespace CreditClear

/-- `ConsentStatus` enum of `collectors.py`. -/
inductive ConsentStatus
  | pending
  | granted
  | denied
  | expired
  | revoked
deriving DecidableEq, Repr

/-- `ConsentStatus.value` (the lowercase string of the Python enum). -/
def statusValue : ConsentStatus → String
  | .pending => "pending"
  | .granted => "granted"
  | .denied => "denied"
  | .expired => "expired"
  | .revoked => "revoked"

/-- `ConsentRequest` dataclass (fields the claims depend on; `purpose`,
`data_sources` and `fi_types` are carried by the Python object but never
inspected by the operations modelled here, so they are omitted). -/
structure ConsentRequest where
  user_id : String
  duration_days : Nat
  created_at : Int
  expires_at : Int
  status : ConsentStatus
  consent_handle : String
  consent_id : Option String
  consent_url : Option String
deriving DecidableEq, Repr

/-- The collector's `active_consents` dict, keyed by consent handle. -/
abbrev ConsentStore := List (String × ConsentRequest)

/-- The empty `active_consents` dict. -/
def emptyStore : ConsentStore := []

/-- Dict lookup: `self.active_consents[handle]` / `handle in self.active_consents`. -/
def lookupConsent : ConsentStore → String → Option ConsentRequest
  | [], _ => none
  | (k, c) :: rest, h => if k = h then some c else lookupConsent rest h

/-- Dict assignment `self.active_consents[handle] = c` (prepend; lookup takes
the first match). -/
def insertConsent (store : ConsentStore) (handle : String) (c : ConsentRequest) :
    ConsentStore :=
  (handle, c) :: store

/-- In-place mutation `consent.status = st` of the object stored under
`handle` (every binding with that key is updated, matching Python's single
shared object). -/
def setStatus (store : ConsentStore) (handle : String) (st : ConsentStatus) :
    ConsentStore :=
  store.map fun p => (p.1, if p.1 = handle then { p.2 with status := st } else p.2)

/-- Outcome of a network interaction: an HTTP response with its parsed body, or
a raised transport exception (`requests` raising, JSON decode failure, ...). -/
inductive NetResult (α : Type)
  | ok (code : Nat) (body : α)
  | exn (msg : String)
deriving DecidableEq, Repr

/-- Python `str.upper()` on the ASCII status vocabulary: uppercase each
character. -/
def pyUpper (s : String) : String :=
  ⟨s.data.map Char.toUpper⟩

/-- Python truthiness test `not consent.consent_id` on an optional string
(`None` and the empty string are falsy). -/
def optStrFalsy : Option String → Bool
  | none => true
  | some s => s.isEmpty

/-- The `status_mapping` dict of `get_consent_status` together with its
`.get(api_status, ConsentStatus.PENDING)` default. -/
def statusMapping (s : String) : ConsentStatus :=
  if s = "ACTIVE" then .granted
  else if s = "PAUSED" then .pending
  else if s = "REVOKED" then .revoked
  else if s = "EXPIRED" then .expired
  else if s = "PENDING" then .pending
  else if s = "REJECTED" then .denied
  else .pending

/-- Result of one `get_consent_status` call: the returned status, the state of
`active_consents` afterwards, and whether the remote status endpoint was
contacted (`session.get` attempted). -/
structure StatusCheckOutcome where
  result : ConsentStatus
  store : ConsentStore
  networkCalled : Bool
deriving DecidableEq, Repr

/-- `AccountAggregatorCollector.get_consent_status`.  `now` is the value of
`datetime.now()` during the call; `net` is the outcome of the
`GET /Consent/handle/{consent_id}` call, whose body is
`response.json().get("status", "")`. -/
def get_consent_status (store : ConsentStore) (consent_handle : String)
    (now : Int) (net : NetResult String) : StatusCheckOutcome :=
  match lookupConsent store consent_handle with
  | none => ⟨.denied, store, false⟩
  | some consent =>
    if consent.expires_at < now then
      ⟨.expired, setStatus store consent_handle .expired, false⟩
    else if optStrFalsy consent.consent_id then
      ⟨consent.status, store, false⟩
    else
      match net with
      | .exn _ => ⟨.denied, store, true⟩
      | .ok code body =>
        if code = 200 then
          ⟨statusMapping (pyUpper body),
           setStatus store consent_handle (statusMapping (pyUpper body)), true⟩
        else
          ⟨consent.status, store, true⟩

/-- Parsed body of a successful `POST /consents` response:
`response.json().get("id")` and `.get("url")`. -/
structure CreateConsentBody where
  id : Option String
  url : Option String
deriving DecidableEq, Repr

/-- `AccountAggregatorCollector.create_consent_request` (configured collector).
`handle` is the freshly drawn `uuid4`, `now` the value of `datetime.now()`, and
`net` the outcome of the `POST /consents` call.  Returns the `ConsentRequest`
handed back to the caller and the state of `active_consents` afterwards: on an
HTTP response the record is stored (status PENDING on 200, DENIED otherwise),
while a transport exception leaves the store untouched and only returns the
DENIED record. -/
def create_consent_request (store : ConsentStore) (user_id : String)
    (duration_days : Nat) (now : Int) (handle : String)
    (net : NetResult CreateConsentBody) : ConsentRequest × ConsentStore :=
  let consent : ConsentRequest :=
    { user_id := user_id
      duration_days := duration_days
      created_at := now
      expires_at := now + duration_days * 86400
      status := .pending
      consent_handle := handle
      consent_id := none
      consent_url := none }
  match net with
  | .exn _ => ({ consent with status := .denied }, store)
  | .ok code body =>
    if code = 200 then
      let c := { consent with consent_id := body.id, consent_url := body.url,
                              status := .pending }
      (c, insertConsent store handle c)
    else
      let c := { consent with status := .denied }
      (c, insertConsent store handle c)

/-- `aa_consent_webhook` route (`POST /webhook/aa-consent`): the handler logs
the notification and acknowledges it, but updates no consent record. -/
def aa_consent_webhook (store : ConsentStore) (_consentId : Option String)
    (_status : Option String) : ConsentStore :=
  store

/-! ### FI data normalization (`_process_setu_fi_data`) -/

/-- A JSON scalar as it appears in `amount` / balance fields of the Setu FI
payload: a number or a string. -/
inductive JVal
  | jnum (q : Rat)
  | jstr (s : String)
deriving DecidableEq, Repr

/-- Numeric value of a digit list, most significant first. -/
def digitsVal (cs : List Char) : Nat :=
  cs.foldl (fun n c => 10 * n + (c.toNat - '0'.toNat)) 0

/-- ASCII whitespace stripped by Python's `float()`. -/
def isSpaceChar (c : Char) : Bool :=
  c = ' ' || c = '\t' || c = '\n' || c = '\r'

/-- Strip leading and trailing whitespace from a character list. -/
def trimChars (cs : List Char) : List Char :=
  ((cs.dropWhile isSpaceChar).reverse.dropWhile isSpaceChar).reverse

/-- Python `float()` on a string: signed decimal literals (surrounding
whitespace stripped); anything else raises `ValueError`, modelled as `none`. -/
def parsePyFloat (s : String) : Option Rat :=
  let cs := trimChars s.data
  let (neg, cs) :=
    match cs with
    | '-' :: rest => (true, rest)
    | '+' :: rest => (false, rest)
    | _ => (false, cs)
  let (intPart, rest) := cs.span Char.isDigit
  let mk (q : Rat) : Option Rat := some (if neg then -q else q)
  match rest with
  | [] =>
    if intPart.isEmpty then none else mk (digitsVal intPart)
  | '.' :: frac =>
    if frac.all Char.isDigit && !(intPart.isEmpty && frac.isEmpty) then
      mk ((digitsVal intPart : Rat) + (digitsVal frac : Rat) / (10 : Rat) ^ frac.length)
    else none
  | _ => none

/-- Python `float()` on a JSON scalar. -/
def pyFloat : JVal → Option Rat
  | .jnum q => some q
  | .jstr s => parsePyFloat s

/-- One entry of an account's `"transactions"` list (fields read by the
normalizer; a missing field is `none`). -/
structure Txn where
  transactionId : Option String
  transactionDate : Option String
  amount : Option JVal
  type_ : Option String
  description : Option String
  currentBalance : Option JVal
  valueDate : Option String
  reference : Option String
deriving DecidableEq, Repr

/-- The `"account"` object of one entry of `"Accounts"`. -/
structure AccountInfo where
  accountId : Option String
  type_ : Option String
  name : Option String
  maskedAccountNumber : Option String
  currentBalance : Option JVal
  availableBalance : Option JVal
  openingDate : Option String
  currency : Option String
deriving DecidableEq, Repr

/-- One entry of the raw payload's `"Accounts"` list. -/
structure Account where
  account : AccountInfo
  transactions : List Txn
deriving DecidableEq, Repr

/-- The raw FI payload handed to `_process_setu_fi_data` (its `"Accounts"`
list; `fi_data.get("Accounts", [])` defaults a missing key to `[]`). -/
structure FiPayload where
  accounts : List Account
deriving DecidableEq, Repr

/-- The `summary_data` dict built once per account. -/
structure SummaryFields where
  account_id : Option String
  account_type : Option String
  account_name : Option String
  masked_number : Option String
  current_balance : JVal
  available_balance : JVal
  opening_date : Option String
  currency : String
deriving DecidableEq, Repr

/-- The transaction-specific keys `transaction_data.update(...)` adds on top of
the account summary. -/
structure TxnFields where
  transaction_id : Option String
  transaction_date : Option String
  amount : Rat
  transaction_type : Option String
  description : Option String
  balance_after_txn : Rat
  value_date : Option String
  reference : Option String
deriving DecidableEq, Repr

/-- One emitted record: the account summary plus, for per-transaction records,
the transaction fields (`none` marks an account-summary-only record, whose
transaction columns are null in the resulting DataFrame). -/
structure FiRecord where
  summary : SummaryFields
  txn : Option TxnFields
deriving DecidableEq, Repr

/-- `summary_data` for an account (`.get` defaults: balances `0`, currency
`"INR"`). -/
def summaryOf (info : AccountInfo) : SummaryFields :=
  { account_id := info.accountId
    account_type := info.type_
    account_name := info.name
    masked_number := info.maskedAccountNumber
    current_balance := info.currentBalance.getD (.jnum 0)
    available_balance := info.availableBalance.getD (.jnum 0)
    opening_date := info.openingDate
    currency := info.currency.getD "INR" }

/-- Build one per-transaction record; `none` when `float(...)` raises on the
`amount` or `currentBalance` field (`txn.get(k, 0)` defaults a missing key to
`0`, which converts fine). -/
def processTxn (s : SummaryFields) (t : Txn) : Option FiRecord :=
  match pyFloat (t.amount.getD (.jnum 0)), pyFloat (t.currentBalance.getD (.jnum 0)) with
  | some a, some b =>
    some ⟨s, some { transaction_id := t.transactionId
                    transaction_date := t.transactionDate
                    amount := a
                    transaction_type := t.type_
                    description := t.description
                    balance_after_txn := b
                    value_date := t.valueDate
                    reference := t.reference }⟩
  | _, _ => none

/-- The inner transaction loop; `none` as soon as one record raises. -/
def processTxns (s : SummaryFields) : List Txn → Option (List FiRecord)
  | [] => some []
  | t :: ts =>
    match processTxn s t, processTxns s ts with
    | some r, some rs => some (r :: rs)
    | _, _ => none

/-- One iteration of the account loop: the per-transaction records followed by
a single summary-only record when the account has no transactions. -/
def processAccount (a : Account) : Option (List FiRecord) :=
  match processTxns (summaryOf a.account) a.transactions with
  | none => none
  | some rs =>
    some (rs ++ if a.transactions.isEmpty then [⟨summaryOf a.account, none⟩] else [])

/-- The account loop; an exception anywhere discards every record. -/
def processAccounts : List Account → Option (List FiRecord)
  | [] => some []
  | a :: rest =>
    match processAccount a, processAccounts rest with
    | some rs, some rs' => some (rs ++ rs')
    | _, _ => none

/-- Result of `_process_setu_fi_data`: the list of emitted records (the rows
of the returned DataFrame; the `pd.to_datetime(..., errors="coerce")` column
coercion never raises and changes no row count, so it is not modelled), or the
random sample DataFrame produced by `_generate_sample_financial_data` with the
user id it was seeded from. -/
inductive ProcessResult
  | ok (records : List FiRecord)
  | sampleFallback (user_id : String)
deriving DecidableEq, Repr

/-- `AccountAggregatorCollector._process_setu_fi_data`: normalize the raw
payload; any exception inside the `try` block (e.g. `float()` raising on a
non-numeric amount) is caught and answered with
`self._generate_sample_financial_data("demo_user")`. -/
def processSetuFiData (p : FiPayload) : ProcessResult :=
  match processAccounts p.accounts with
  | some rss => .ok rss
  | none => .sampleFallback "demo_user"

/-- Number of records the normalizer emitted, when it emitted the payload's
records at all (the sample fallback's row count comes from a numpy RNG and is
not a function of the payload). -/
def emittedCount : ProcessResult → Option Nat
  | .ok rs => some rs.length
  | .sampleFallback _ => none

/-- Total number of transactions across the payload's accounts. -/
def totalTransactions (p : FiPayload) : Nat :=
  (p.accounts.map fun a => a.transactions.length).sum

/-- Number of accounts with an empty transaction list. -/
def emptyAccounts (p : FiPayload) : Nat :=
  p.accounts.countP fun a => a.transactions.isEmpty

/-- Does `float()` raise on this transaction's `amount` or `currentBalance`? -/
def badTxn (t : Txn) : Bool :=
  (pyFloat (t.amount.getD (.jnum 0))).isNone ||
  (pyFloat (t.currentBalance.getD (.jnum 0))).isNone

/-- Does some transaction of the payload carry an `amount` or `currentBalance`
value on which `float()` raises? -/
def hasBadAmount (p : FiPayload) : Bool :=
  p.accounts.any fun a => a.transactions.any badTxn

/-- `CollectionResult` as produced by `fetch_fi_data` (fields the claims use;
`records_collected` is `len(df)` and `metadata` carries only diagnostics). -/
structure CollectionResultM where
  success : Bool
  data : Option ProcessResult
  error_message : Option String
deriving DecidableEq, Repr

/-- `AccountAggregatorCollector.fetch_fi_data`: `net` is the outcome of
`GET /FI/fetch/{session_id}` with its JSON body. -/
def fetch_fi_data (_session_id : String) (net : NetResult FiPayload) :
    CollectionResultM :=
  match net with
  | .exn m => { success := false, data := none, error_message := some m }
  | .ok code body =>
    if code = 200 then
      { success := true, data := some (processSetuFiData body), error_message := none }
    else
      { success := false, data := none
        error_message := some ("API error: " ++ toString code) }

/-! ### FI data request (`request_fi_data`) and its API route -/

/-- What `AccountAggregatorCollector.request_fi_data` produces: a raised
`ValueError`, or the result dict. -/
inductive FiReqResult
  | valueError (msg : String)
  | resultDict (success : Bool) (session_id : Option String)
      (consent_id : Option String) (message : String)
deriving DecidableEq, Repr

/-- `POST /FI/request` response as the collector reads it:
`response.json().get("sessionId")` on 200, `response.text` otherwise. -/
structure FiReqBody where
  sessionId : Option String
  text : String
deriving DecidableEq, Repr

/-- `AccountAggregatorCollector.request_fi_data`.  `statusNet` feeds the
internal `get_consent_status` re-check, `fiNet` the `POST /FI/request` call.
The final `Bool` records whether the FI request was POSTed. -/
def request_fi_data (store : ConsentStore) (consent_handle : String) (now : Int)
    (statusNet : NetResult String) (fiNet : NetResult FiReqBody) :
    FiReqResult × ConsentStore × Bool :=
  match lookupConsent store consent_handle with
  | none => (.valueError "Invalid consent handle", store, false)
  | some consent =>
    let o := get_consent_status store consent_handle now statusNet
    if o.result = .granted then
      match fiNet with
      | .exn _ =>
        (.resultDict false none none "Failed to initiate FI data request",
         o.store, true)
      | .ok code body =>
        if code = 200 then
          (.resultDict true body.sessionId consent.consent_id
            "FI data request initiated successfully", o.store, true)
        else
          (.resultDict false none none body.text, o.store, true)
    else
      (.valueError "Consent not granted or expired", o.store, false)

/-- `FIDataResponse` of the `/request-fi-data` route. -/
structure FIDataRespM where
  success : Bool
  session_id : Option String
  consent_id : Option String
  message : String
deriving DecidableEq, Repr

/-- A FastAPI route outcome: a response body or an `HTTPException`. -/
inductive RouteResult (α : Type)
  | ok (a : α)
  | httpError (code : Nat) (detail : String)
deriving DecidableEq, Repr

/-- Outcome of one `/request-fi-data` route call. -/
structure RouteFiOutcome where
  response : RouteResult FIDataRespM
  store : ConsentStore
  fiRequestCalled : Bool
deriving DecidableEq, Repr

/-- `request_fi_data` route of `data_collection.py`: checks
`get_consent_status` first (network outcome `statusNet1`) and rejects with a
400 carrying the actual status when it is not GRANTED; otherwise delegates to
the collector (`statusNet2`, `fiNet`).  A `ValueError` escaping the collector
is caught by the route's generic handler as a 500. -/
def route_request_fi_data (store : ConsentStore) (consent_handle : String)
    (now : Int) (statusNet1 statusNet2 : NetResult String)
    (fiNet : NetResult FiReqBody) : RouteFiOutcome :=
  if (get_consent_status store consent_handle now statusNet1).result = .granted then
    match request_fi_data (get_consent_status store consent_handle now statusNet1).store
        consent_handle now statusNet2 fiNet with
    | (.valueError msg, s, called) =>
      ⟨.httpError 500 ("Internal server error: " ++ msg), s, called⟩
    | (.resultDict success sid cid msg, s, called) =>
      if success then
        ⟨.ok { success := true, session_id := sid, consent_id := cid
               message := "FI data request initiated successfully. Use session_id to fetch data." },
         s, called⟩
      else
        ⟨.httpError 400 msg, s, called⟩
  else
    ⟨.httpError 400 ("Consent not granted. Current status: " ++
        statusValue (get_consent_status store consent_handle now statusNet1).result),
     (get_consent_status store consent_handle now statusNet1).store, false⟩

/-- Number of summary-only records the normalizer emitted (those whose
transaction columns are null), when the payload's records were emitted. -/
def summaryCount : ProcessResult → Option Nat
  | .ok rs => some (rs.countP fun r => r.txn.isNone)
  | .sampleFallback _ => none

/-! ### Concrete fixtures used by counterexamples and witnesses -/

/-- A stored consent that is still PENDING, has a remote consent id, and
expires at time 1000. -/
def pendingConsent : ConsentRequest :=
  { user_id := "u-p", duration_days := 30, created_at := 0, expires_at := 1000,
    status := .pending, consent_handle := "hp", consent_id := some "cid-p",
    consent_url := some "https://fiu.example/consent" }

/-- A stored consent whose cached status is the terminal DENIED, with a remote
consent id and expiry at time 1000. -/
def deniedConsent : ConsentRequest :=
  { user_id := "u-d", duration_days := 30, created_at := 0, expires_at := 1000,
    status := .denied, consent_handle := "hd", consent_id := some "cid-d",
    consent_url := none }

/-- A stored PENDING consent with no remote consent id yet (status checks
return the cached status without a network call). -/
def localPendingConsent : ConsentRequest :=
  { user_id := "u-l", duration_days := 30, created_at := 0, expires_at := 1000,
    status := .pending, consent_handle := "hl", consent_id := none,
    consent_url := none }

/-- A transaction with the given raw `amount` value. -/
def txnOf (amount : Option JVal) : Txn :=
  { transactionId := some "t1", transactionDate := some "2024-01-01"
    amount := amount, type_ := some "DEBIT", description := some "purchase"
    currentBalance := some (.jnum 500), valueDate := none, reference := none }

/-- An account holding the given transactions. -/
def accountOf (ts : List Txn) : Account :=
  { account :=
      { accountId := some "acc1", type_ := some "SAVINGS", name := some "Main"
        maskedAccountNumber := some "XXXX1234"
        currentBalance := some (.jnum 1000)
        availableBalance := some (.jnum 900)
        openingDate := some "2020-01-01", currency := some "INR" }
    transactions := ts }

/-- Payload with a single account whose single transaction has a non-numeric
amount. -/
def badAmountPayload : FiPayload :=
  ⟨[accountOf [txnOf (some (.jstr "not_a_number"))]]⟩

/-- Payload with one well-formed transaction followed by one with a
non-numeric amount in the same account. -/
def mixedAmountPayload : FiPayload :=
  ⟨[accountOf [txnOf (some (.jnum 250)), txnOf (some (.jstr "not_a_number"))]]⟩

/-- Well-formed payload: one account with two transactions and one account
with none. -/
def goodPayload : FiPayload :=
  ⟨[accountOf [txnOf (some (.jnum 250)), txnOf (some (.jstr "75.5"))],
    accountOf []]⟩

/-! ### Store lemmas -/

theorem lookupConsent_setStatus (store : ConsentStore) (handle h : String)
    (st : ConsentStatus) :
    lookupConsent (setStatus store handle st) h =
      (lookupConsent store h).map
        (fun c => if h = handle then { c with status := st } else c) := by
  induction store with
  | nil => rfl
  | cons p rest ih =>
    obtain ⟨k, c⟩ := p
    simp only [setStatus, List.map_cons] at *
    by_cases hh : k = h
    · subst hh
      simp [lookupConsent]
    · simp [lookupConsent, hh, ih]

theorem lookupConsent_insert_self (store : ConsentStore) (handle : String)
    (c : ConsentRequest) :
    lookupConsent (insertConsent store handle c) handle = some c := by
  simp [insertConsent, lookupConsent]

/-! ### Normalization lemmas -/

theorem processTxns_counts (s : SummaryFields) :
    ∀ (ts : List Txn) (rs : List FiRecord), processTxns s ts = some rs →
      rs.length = ts.length ∧ rs.countP (fun r => r.txn.isNone) = 0 := by
  intro ts
  induction ts with
  | nil => intro rs h; cases h; simp
  | cons t ts ih =>
    intro rs h
    unfold processTxns at h
    cases hr : processTxn s t with
    | none => rw [hr] at h; cases h
    | some r =>
      cases hrs : processTxns s ts with
      | none => rw [hr, hrs] at h; cases h
      | some rs' =>
        rw [hr, hrs] at h
        cases h
        obtain ⟨hlen, hcnt⟩ := ih rs' hrs
        have hsome : r.txn.isNone = false := by
          unfold processTxn at hr
          cases ha : pyFloat (t.amount.getD (.jnum 0)) with
          | none => rw [ha] at hr; cases hr
          | some a =>
            cases hb : pyFloat (t.currentBalance.getD (.jnum 0)) with
            | none => rw [ha, hb] at hr; cases hr
            | some b =>
              rw [ha, hb] at hr
              cases hr
              rfl
        constructor
        · simp [hlen]
        · simp [List.countP_cons, hsome, hcnt]

theorem processAccount_counts (a : Account) (rs : List FiRecord)
    (h : processAccount a = some rs) :
    rs.length = a.transactions.length + (if a.transactions.isEmpty then 1 else 0) ∧
    rs.countP (fun r => r.txn.isNone) = (if a.transactions.isEmpty then 1 else 0) := by
  unfold processAccount at h
  cases hts : processTxns (summaryOf a.account) a.transactions with
  | none => rw [hts] at h; cases h
  | some rs' =>
    rw [hts] at h
    obtain ⟨hlen, hcnt⟩ := processTxns_counts _ _ _ hts
    cases h
    by_cases he : a.transactions.isEmpty
    · simp [he, List.countP_append, List.countP_cons, hlen, hcnt]
    · simp [he, hlen, hcnt]

theorem processAccounts_counts :
    ∀ (accs : List Account) (rs : List FiRecord), processAccounts accs = some rs →
      rs.length = (accs.map fun a => a.transactions.length).sum +
        accs.countP (fun a => a.transactions.isEmpty) ∧
      rs.countP (fun r => r.txn.isNone) =
        accs.countP (fun a => a.transactions.isEmpty) := by
  intro accs
  induction accs with
  | nil => intro rs h; cases h; simp
  | cons a rest ih =>
    intro rs h
    unfold processAccounts at h
    cases ha : processAccount a with
    | none => rw [ha] at h; cases h
    | some ra =>
      cases hrest : processAccounts rest with
      | none => rw [ha, hrest] at h; cases h
      | some rr =>
        rw [ha, hrest] at h
        cases h
        obtain ⟨hl1, hc1⟩ := processAccount_counts a ra ha
        obtain ⟨hl2, hc2⟩ := ih rr hrest
        refine ⟨?_, ?_⟩
        · rw [List.length_append, hl1, hl2, List.map_cons, List.sum_cons,
            List.countP_cons]
          by_cases he : a.transactions.isEmpty <;> simp [he] <;> try omega
        · rw [List.countP_append, hc1, hc2, List.countP_cons]
          by_cases he : a.transactions.isEmpty <;> simp [he] <;> try omega

theorem processTxn_bad (s : SummaryFields) (t : Txn) (h : badTxn t = true) :
    processTxn s t = none := by
  unfold badTxn at h
  unfold processTxn
  cases ha : pyFloat (t.amount.getD (.jnum 0)) with
  | none => cases pyFloat (t.currentBalance.getD (.jnum 0)) <;> rfl
  | some a =>
    cases hb : pyFloat (t.currentBalance.getD (.jnum 0)) with
    | none => rfl
    | some b => simp [ha, hb] at h

theorem processTxns_bad (s : SummaryFields) :
    ∀ (ts : List Txn), ts.any badTxn = true → processTxns s ts = none := by
  intro ts
  induction ts with
  | nil => intro h; cases h
  | cons t rest ih =>
    intro h
    unfold processTxns
    rw [List.any_cons] at h
    rcases Bool.or_eq_true_iff.mp h with hbad | hrest
    · rw [processTxn_bad s t hbad]
    · rw [ih hrest]
      cases processTxn s t <;> rfl

theorem processAccount_bad (a : Account) (h : a.transactions.any badTxn = true) :
    processAccount a = none := by
  unfold processAccount
  rw [processTxns_bad _ _ h]

theorem processAccounts_bad :
    ∀ (accs : List Account), (accs.any fun a => a.transactions.any badTxn) = true →
      processAccounts accs = none := by
  intro accs
  induction accs with
  | nil => intro h; cases h
  | cons a rest ih =>
    intro h
    unfold processAccounts
    rw [List.any_cons] at h
    rcases Bool.or_eq_true_iff.mp h with hbad | hrest
    · rw [processAccount_bad a hbad]
    · rw [ih hrest]
      cases processAccount a <;> rfl

theorem processTxn_good (s : SummaryFields) (t : Txn) (h : badTxn t = false) :
    ∃ r, processTxn s t = some r := by
  unfold badTxn at h
  unfold processTxn
  cases ha : pyFloat (t.amount.getD (.jnum 0)) with
  | none => simp [ha] at h
  | some a =>
    cases hb : pyFloat (t.currentBalance.getD (.jnum 0)) with
    | none => simp [ha, hb] at h
    | some b => exact ⟨_, rfl⟩

theorem processTxns_good (s : SummaryFields) :
    ∀ ts : List Txn, ts.any badTxn = false → ∃ rs, processTxns s ts = some rs := by
  intro ts
  induction ts with
  | nil => intro _; exact ⟨[], rfl⟩
  | cons t rest ih =>
    intro h
    rw [List.any_cons] at h
    obtain ⟨h1, h2⟩ := Bool.or_eq_false_iff.mp h
    obtain ⟨r, hr⟩ := processTxn_good s t h1
    obtain ⟨rs, hrs⟩ := ih h2
    exact ⟨r :: rs, by unfold processTxns; rw [hr, hrs]⟩

theorem processAccounts_good :
    ∀ accs : List Account, (accs.any fun a => a.transactions.any badTxn) = false →
      ∃ rs, processAccounts accs = some rs := by
  intro accs
  induction accs with
  | nil => intro _; exact ⟨[], rfl⟩
  | cons a rest ih =>
    intro h
    rw [List.any_cons] at h
    obtain ⟨h1, h2⟩ := Bool.or_eq_false_iff.mp h
    obtain ⟨ra, hra⟩ := processTxns_good (summaryOf a.account) a.transactions h1
    obtain ⟨rr, hrr⟩ := ih h2
    refine ⟨ra ++ (if a.transactions.isEmpty then [⟨summaryOf a.account, none⟩] else []) ++ rr, ?_⟩
    unfold processAccounts processAccount
    rw [hra, hrr]

theorem processSetuFiData_bad (p : FiPayload) (h : hasBadAmount p = true) :
    processSetuFiData p = .sampleFallback "demo_user" := by
  unfold hasBadAmount at h
  unfold processSetuFiData
  rw [processAccounts_bad p.accounts h]

/-! ### Status-check case analysis -/

theorem get_consent_status_store_cases (store : ConsentStore) (handle : String)
    (now : Int) (net : NetResult String) :
    (get_consent_status store handle now net).store = store ∨
    (∃ c, lookupConsent store handle = some c ∧ c.expires_at < now ∧
      (get_consent_status store handle now net).store =
        setStatus store handle .expired) ∨
    (∃ body, net = .ok 200 body ∧
      (get_consent_status store handle now net).store =
        setStatus store handle (statusMapping (pyUpper body))) := by
  unfold get_consent_status
  cases hl : lookupConsent store handle with
  | none => left; rfl
  | some c =>
    by_cases h2 : c.expires_at < now
    · right; left
      exact ⟨c, rfl, h2, by simp [h2]⟩
    · by_cases h3 : optStrFalsy c.consent_id
      · left; simp [h2, h3]
      · cases net with
        | exn m => left; simp [h2, h3]
        | ok code body =>
          by_cases hc : code = 200
          · right; right
            subst hc
            exact ⟨body, rfl, by simp [h2, h3]⟩
          · left; simp [h2, h3, hc]

/-! ## Claims -/

/-- C2: for every stored consent whose `expires_at` lies in the past,
`get_consent_status` returns EXPIRED, records EXPIRED as the consent's stored
status, and consults no network — in particular it never returns GRANTED,
whatever the remote endpoint would have answered. -/
theorem c2_expired_short_circuit (store : ConsentStore) (handle : String)
    (now : Int) (net : NetResult String) (c : ConsentRequest)
    (h1 : lookupConsent store handle = some c) (h2 : c.expires_at < now) :
    (get_consent_status store handle now net).result = .expired ∧
    (get_consent_status store handle now net).networkCalled = false ∧
    lookupConsent (get_consent_status store handle now net).store handle =
      some { c with status := .expired } := by
  unfold get_consent_status
  rw [h1]
  simp [h2, lookupConsent_setStatus, h1]

/-- Witness for C2 at a concrete expired consent and a remote answer of
ACTIVE. -/
theorem c2_witness :
    lookupConsent [("hp", pendingConsent)] "hp" = some pendingConsent ∧
    pendingConsent.expires_at < 2000 ∧
    ((get_consent_status [("hp", pendingConsent)] "hp" 2000 (.ok 200 "ACTIVE")).result = .expired ∧
     (get_consent_status [("hp", pendingConsent)] "hp" 2000 (.ok 200 "ACTIVE")).networkCalled = false ∧
     lookupConsent (get_consent_status [("hp", pendingConsent)] "hp" 2000 (.ok 200 "ACTIVE")).store "hp" =
       some { pendingConsent with status := .expired }) :=
  ⟨rfl, by decide,
   c2_expired_short_circuit [("hp", pendingConsent)] "hp" 2000 (.ok 200 "ACTIVE")
     pendingConsent rfl (by decide)⟩

/-- C6 counterexample: a transport error while reconciling a stored PENDING
consent makes `get_consent_status` return DENIED (the cached PENDING status is
left in the store, but the caller is told DENIED and no transport failure is
surfaced), contradicting the claim that a transient network error never
reports DENIED. -/
theorem c6_counterexample :
    get_consent_status [("hp", pendingConsent)] "hp" 5 (.exn "connection refused") =
      ⟨.denied, [("hp", pendingConsent)], true⟩ := by
  decide

/-- C6 amended: when the status-reconciliation network call raises a transport
error, the cached consent record is left untouched, but the call returns
DENIED to the caller instead of surfacing the transport failure. -/
theorem c6_amended_exn_returns_denied (store : ConsentStore) (handle : String)
    (now : Int) (msg : String) (c : ConsentRequest)
    (h1 : lookupConsent store handle = some c)
    (h2 : ¬ c.expires_at < now) (h3 : optStrFalsy c.consent_id = false) :
    get_consent_status store handle now (.exn msg) = ⟨.denied, store, true⟩ := by
  unfold get_consent_status
  rw [h1]
  simp [h2, h3]

/-- Witness for C6 amended at a concrete consent. -/
theorem c6_witness :
    lookupConsent [("hp", pendingConsent)] "hp" = some pendingConsent ∧
    ¬ pendingConsent.expires_at < 5 ∧
    optStrFalsy pendingConsent.consent_id = false ∧
    get_consent_status [("hp", pendingConsent)] "hp" 5 (.exn "timeout") =
      ⟨.denied, [("hp", pendingConsent)], true⟩ :=
  ⟨rfl, by decide, by decide,
   c6_amended_exn_returns_denied [("hp", pendingConsent)] "hp" 5 "timeout"
     pendingConsent rfl (by decide) (by decide)⟩

/-- C7 counterexample: a stored consent whose cached status is the terminal
DENIED, with a consent id and an unexpired window, is re-queried over the
network (`networkCalled = true`) and even flips to GRANTED when the remote
endpoint answers ACTIVE — the claim that terminal cached statuses are returned
immediately without a network call is false. -/
theorem c7_counterexample :
    get_consent_status [("hd", deniedConsent)] "hd" 5 (.ok 200 "ACTIVE") =
      ⟨.granted, [("hd", { deniedConsent with status := .granted })], true⟩ := by
  decide

/-- C7 amended: `get_consent_status` answers without contacting the network
exactly when the handle is unknown, or the consent is past `expires_at`, or no
(non-empty) consent id is recorded; a cached terminal status by itself never
prevents the network call. -/
theorem c7_amended_network_call_iff (store : ConsentStore) (handle : String)
    (now : Int) (net : NetResult String) :
    (get_consent_status store handle now net).networkCalled = true ↔
      ∃ c, lookupConsent store handle = some c ∧ ¬ c.expires_at < now ∧
           optStrFalsy c.consent_id = false := by
  unfold get_consent_status
  cases hl : lookupConsent store handle with
  | none => simp
  | some c =>
    by_cases h2 : c.expires_at < now
    · simp [h2]
    · by_cases h3 : optStrFalsy c.consent_id
      · simp [h2, h3]
      · cases net with
        | exn m => simp [h2, h3]; omega
        | ok code body =>
          by_cases hc : code = 200 <;> simp [h2, h3, hc] <;> omega

/-- C8 counterexample: when the `POST /consents` call raises a transport
error, the returned request is DENIED but it is **not** stored in
`active_consents` — the claim that the request "is still created and stored
locally" fails on the transport-error half. -/
theorem c8_counterexample :
    (create_consent_request emptyStore "u8" 30 0 "h8" (.exn "connection refused")).1.status = .denied ∧
    (create_consent_request emptyStore "u8" 30 0 "h8" (.exn "connection refused")).2 = emptyStore ∧
    lookupConsent (create_consent_request emptyStore "u8" 30 0 "h8" (.exn "connection refused")).2 "h8" = none := by
  refine ⟨rfl, rfl, rfl⟩

/-- C8 amended: a non-200 HTTP response stores the request locally with status
DENIED (surfaced through the returned record); a transport error also returns
a DENIED record, but leaves `active_consents` unchanged, so the request is not
stored. -/
theorem c8_amended_create_failure :
    (∀ (store : ConsentStore) (uid : String) (dd : Nat) (now : Int)
        (handle : String) (code : Nat) (body : CreateConsentBody), code ≠ 200 →
        (create_consent_request store uid dd now handle (.ok code body)).1.status = .denied ∧
        lookupConsent (create_consent_request store uid dd now handle (.ok code body)).2 handle =
          some (create_consent_request store uid dd now handle (.ok code body)).1) ∧
    (∀ (store : ConsentStore) (uid : String) (dd : Nat) (now : Int)
        (handle : String) (msg : String),
        (create_consent_request store uid dd now handle (.exn msg)).1.status = .denied ∧
        (create_consent_request store uid dd now handle (.exn msg)).2 = store) := by
  constructor
  · intro store uid dd now handle code body hc
    simp [create_consent_request, hc, insertConsent, lookupConsent]
  · intro store uid dd now handle msg
    simp [create_consent_request]

/-- Witness for C8 amended: a 500 response stores a DENIED request. -/
theorem c8_witness :
    (500 : Nat) ≠ 200 ∧
    ((create_consent_request emptyStore "u8" 30 0 "h8" (.ok 500 ⟨none, none⟩)).1.status = .denied ∧
     lookupConsent (create_consent_request emptyStore "u8" 30 0 "h8" (.ok 500 ⟨none, none⟩)).2 "h8" =
       some (create_consent_request emptyStore "u8" 30 0 "h8" (.ok 500 ⟨none, none⟩)).1) :=
  ⟨by decide,
   c8_amended_create_failure.1 emptyStore "u8" 30 0 "h8" 500 ⟨none, none⟩ (by decide)⟩

/-- C9: the remote-status mapping is fail-closed — it yields GRANTED exactly
for the string "ACTIVE", and sends every string outside the six known remote
values to PENDING. -/
theorem c9_status_mapping_fail_closed (s : String) :
    (statusMapping s = .granted ↔ s = "ACTIVE") ∧
    (s ∉ ["ACTIVE", "PAUSED", "REVOKED", "EXPIRED", "PENDING", "REJECTED"] →
      statusMapping s = .pending) := by
  constructor
  · constructor
    · intro h
      by_cases h1 : s = "ACTIVE"
      · exact h1
      · exfalso
        unfold statusMapping at h
        rw [if_neg h1] at h
        split_ifs at h
    · intro h
      subst h
      rfl
  · intro h
    simp only [List.mem_cons, List.not_mem_nil, or_false, not_or] at h
    obtain ⟨h1, h2, h3, h4, h5, h6⟩ := h
    unfold statusMapping
    simp [h1, h2, h3, h4, h5, h6]

/-- Witness for C9 at the unknown remote value "FAILED". -/
theorem c9_witness :
    "FAILED" ∉ ["ACTIVE", "PAUSED", "REVOKED", "EXPIRED", "PENDING", "REJECTED"] ∧
    statusMapping "FAILED" = .pending :=
  ⟨by decide, (c9_status_mapping_fail_closed "FAILED").2 (by decide)⟩

/-- C1 counterexample: starting from an empty store, create a consent (HTTP
200, so it is stored PENDING), reconcile once with the remote answering ACTIVE
(status becomes GRANTED), then reconcile again with the remote answering
PAUSED: the stored status moves GRANTED → PENDING, an edge the claimed state
machine forbids. -/
theorem c1_counterexample :
    (get_consent_status
        (create_consent_request emptyStore "u1" 30 0 "h1"
          (.ok 200 ⟨some "cid1", some "url1"⟩)).2
        "h1" 10 (.ok 200 "ACTIVE")).result = .granted ∧
    (get_consent_status
        (get_consent_status
          (create_consent_request emptyStore "u1" 30 0 "h1"
            (.ok 200 ⟨some "cid1", some "url1"⟩)).2
          "h1" 10 (.ok 200 "ACTIVE")).store
        "h1" 20 (.ok 200 "PAUSED")).result = .pending ∧
    (lookupConsent
        (get_consent_status
          (get_consent_status
            (create_consent_request emptyStore "u1" 30 0 "h1"
              (.ok 200 ⟨some "cid1", some "url1"⟩)).2
            "h1" 10 (.ok 200 "ACTIVE")).store
          "h1" 20 (.ok 200 "PAUSED")).store "h1").map ConsentRequest.status =
      some .pending := by
  refine ⟨by decide, by decide, by decide⟩

/-- C1 amended: a stored consent's status changes only through (a) the lazy
expiry edge — any status becomes EXPIRED once `now` is past `expires_at` — or
(b) remote reconciliation — on an HTTP 200 status response the stored status
becomes the mapped remote status, whatever it was before.  In particular
GRANTED can return to PENDING (remote PAUSED) and DENIED/REVOKED can leave
again; webhook ingestion updates nothing, and a freshly created consent starts
at PENDING (stored) or DENIED (creation failure). -/
theorem c1_amended_transitions :
    (∀ (store : ConsentStore) (handle : String) (now : Int)
        (net : NetResult String) (h : String) (c c' : ConsentRequest),
        lookupConsent store h = some c →
        lookupConsent (get_consent_status store handle now net).store h = some c' →
        c'.status = c.status ∨
        (c.expires_at < now ∧ c'.status = .expired) ∨
        (∃ body, net = .ok 200 body ∧ c'.status = statusMapping (pyUpper body))) ∧
    (∀ (store : ConsentStore) (cid st : Option String),
        aa_consent_webhook store cid st = store) ∧
    (∀ (store : ConsentStore) (uid : String) (dd : Nat) (now : Int)
        (handle : String) (net : NetResult CreateConsentBody),
        (create_consent_request store uid dd now handle net).1.status = .pending ∨
        (create_consent_request store uid dd now handle net).1.status = .denied) := by
  refine ⟨?_, fun _ _ _ => rfl, ?_⟩
  · intro store handle now net h c c' h1 h2
    rcases get_consent_status_store_cases store handle now net with
      hs | ⟨cc, hcc, hexp, hs⟩ | ⟨body, hnet, hs⟩
    · rw [hs, h1] at h2
      cases h2
      left; rfl
    · rw [hs, lookupConsent_setStatus, h1] at h2
      by_cases hh : h = handle
      · subst hh
        rw [h1] at hcc
        injection hcc with hceq
        subst hceq
        simp only [if_pos rfl, Option.map_some] at h2
        injection h2 with hc2
        subst hc2
        right; left
        exact ⟨hexp, rfl⟩
      · simp only [if_neg hh, Option.map_some] at h2
        injection h2 with hc2
        subst hc2
        left; rfl
    · rw [hs, lookupConsent_setStatus, h1] at h2
      by_cases hh : h = handle
      · subst hh
        simp only [if_pos rfl, Option.map_some] at h2
        injection h2 with hc2
        subst hc2
        right; right
        exact ⟨body, hnet, rfl⟩
      · simp only [if_neg hh, Option.map_some] at h2
        injection h2 with hc2
        subst hc2
        left; rfl
  · intro store uid dd now handle net
    cases net with
    | exn m => right; rfl
    | ok code body =>
      by_cases hc : code = 200
      · left; simp [create_consent_request, hc]
      · right; simp [create_consent_request, hc]

/-- Witness for C1 amended: a status check that changes nothing (transport
error) leaves the stored status equal to itself. -/
theorem c1_witness :
    lookupConsent [("hp", pendingConsent)] "hp" = some pendingConsent ∧
    lookupConsent (get_consent_status [("hp", pendingConsent)] "hp" 5
        (.exn "x")).store "hp" = some pendingConsent ∧
    (pendingConsent.status = pendingConsent.status ∨
     (pendingConsent.expires_at < 5 ∧ pendingConsent.status = .expired) ∨
     (∃ body, (NetResult.exn "x" : NetResult String) = .ok 200 body ∧
        pendingConsent.status = statusMapping (pyUpper body))) :=
  ⟨rfl, by decide,
   c1_amended_transitions.1 [("hp", pendingConsent)] "hp" 5 (.exn "x") "hp"
     pendingConsent pendingConsent rfl (by decide)⟩

/-- C3 counterexample: a payload whose single account has one well-formed
transaction and one transaction with amount "not_a_number" is normalized to
the sample fallback — the malformed record is not emitted with amount 0, and
the well-formed record of the same payload is not emitted either. -/
theorem c3_counterexample :
    processSetuFiData mixedAmountPayload = .sampleFallback "demo_user" ∧
    emittedCount (processSetuFiData mixedAmountPayload) = none := by
  exact ⟨by decide, by decide⟩

/-- C3 amended: a transaction whose `amount` (or `currentBalance`) is present
but non-numeric makes `float()` raise, which aborts the whole normalization:
no record of the payload is emitted and the batch is replaced by generated
sample data seeded from "demo_user". -/
theorem c3_amended_bad_amount_fallback (p : FiPayload)
    (h : hasBadAmount p = true) :
    processSetuFiData p = .sampleFallback "demo_user" :=
  processSetuFiData_bad p h

/-- Witness for C3 amended at the mixed payload. -/
theorem c3_witness :
    hasBadAmount mixedAmountPayload = true ∧
    processSetuFiData mixedAmountPayload = .sampleFallback "demo_user" :=
  ⟨by decide, c3_amended_bad_amount_fallback mixedAmountPayload (by decide)⟩

/-- C4 counterexample: a payload with one account and one transaction (whose
amount is non-numeric) should, per the claim, emit exactly 1 record; instead
normalization emits none of the payload's records and falls back to sample
data. -/
theorem c4_counterexample :
    emittedCount (processSetuFiData badAmountPayload) = none ∧
    processSetuFiData badAmountPayload = .sampleFallback "demo_user" := by
  exact ⟨by decide, by decide⟩

/-- C4 amended: for every payload all of whose transaction amount/balance
fields convert (so normalization succeeds), the number of emitted records is
exactly M + (number of accounts with zero transactions), and the records with
null transaction fields are exactly one per zero-transaction account. -/
theorem c4_amended_record_count (p : FiPayload) (h : hasBadAmount p = false) :
    emittedCount (processSetuFiData p) =
      some (totalTransactions p + emptyAccounts p) ∧
    summaryCount (processSetuFiData p) = some (emptyAccounts p) := by
  unfold hasBadAmount at h
  obtain ⟨rs, hrs⟩ := processAccounts_good p.accounts h
  obtain ⟨hl, hc⟩ := processAccounts_counts p.accounts rs hrs
  unfold processSetuFiData emittedCount summaryCount totalTransactions emptyAccounts
  rw [hrs]
  constructor <;> simp [hl, hc]

/-- Witness for C4 amended: 2 transactions in the first account, none in the
second, so 2 + 1 = 3 records, one of them summary-only. -/
theorem c4_witness :
    hasBadAmount goodPayload = false ∧
    (emittedCount (processSetuFiData goodPayload) =
       some (totalTransactions goodPayload + emptyAccounts goodPayload) ∧
     summaryCount (processSetuFiData goodPayload) = some (emptyAccounts goodPayload)) :=
  ⟨by decide, c4_amended_record_count goodPayload (by decide)⟩

/-- C5: whenever the consent-status check of the `/request-fi-data` route
yields anything but GRANTED, the route answers HTTP 400 with a detail carrying
the actual current status, never calls the collector's FI request (no
`POST /FI/request`), and produces no session id. -/
theorem c5_not_granted_no_fetch (store : ConsentStore) (handle : String)
    (now : Int) (statusNet1 statusNet2 : NetResult String)
    (fiNet : NetResult FiReqBody) (s : ConsentStatus)
    (hs : (get_consent_status store handle now statusNet1).result = s)
    (hne : s ≠ .granted) :
    route_request_fi_data store handle now statusNet1 statusNet2 fiNet =
      ⟨.httpError 400 ("Consent not granted. Current status: " ++ statusValue s),
       (get_consent_status store handle now statusNet1).store, false⟩ := by
  unfold route_request_fi_data
  rw [hs, if_neg hne]

/-- Witness for C5: a stored PENDING consent (no remote id yet) makes the
route reject with the status "pending" and no FI request. -/
theorem c5_witness :
    (get_consent_status [("hl", localPendingConsent)] "hl" 5 (.exn "x")).result = .pending ∧
    ConsentStatus.pending ≠ .granted ∧
    route_request_fi_data [("hl", localPendingConsent)] "hl" 5 (.exn "x") (.exn "x") (.exn "y") =
      ⟨.httpError 400 ("Consent not granted. Current status: " ++ statusValue .pending),
       (get_consent_status [("hl", localPendingConsent)] "hl" 5 (.exn "x")).store, false⟩ :=
  ⟨rfl, by decide,
   c5_not_granted_no_fetch [("hl", localPendingConsent)] "hl" 5 (.exn "x") (.exn "x")
     (.exn "y") .pending rfl (by decide)⟩

/-- C10: when the fetched payload makes normalization raise (a non-numeric
amount), `fetch_fi_data` on the HTTP 200 response still reports success: the
result has `success = true` and carries the sample data generated with the
fixed seed string "demo_user" instead of an error. -/
theorem c10_fallback_success (session_id : String) (p : FiPayload)
    (h : hasBadAmount p = true) :
    fetch_fi_data session_id (.ok 200 p) =
      { success := true, data := some (.sampleFallback "demo_user"),
        error_message := none } := by
  unfold fetch_fi_data
  simp [processSetuFiData_bad p h]

/-- Witness for C10 at the bad-amount payload. -/
theorem c10_witness :
    hasBadAmount badAmountPayload = true ∧
    fetch_fi_data "sess-1" (.ok 200 badAmountPayload) =
      { success := true, data := some (.sampleFallback "demo_user"),
        error_message := none } :=
  ⟨by decide, c10_fallback_success "sess-1" badAmountPayload (by decide)⟩

end CreditClear
